import Mathlib

/-!
Shallow embedding of `src/habitica_seed.py` (a Habitica daily-task seeder).

The script reads configuration from environment variables, picks a quote
(from `quotes.json` when `QUOTES_SOURCE == "repo"`, otherwise from a constant
list), computes a due date `(today in America/Los_Angeles) + OFFSET_DAYS`,
builds a single task payload, and POSTs it to the Habitica API.

Modelling conventions:
- Python's dynamically-typed JSON values are the inductive `Json`.
- `datetime.date` is a year/month/day record; `date.toordinal`,
  `date.fromordinal` and `timedelta(days=n)` addition follow CPython's
  proleptic-Gregorian calendar arithmetic.
- Randomness (`random.choice`) is an oracle index `r : Nat`; the chosen
  element is the one at position `r % len(seq)`.
- The outside world (environment variables, the state of `quotes.json`,
  zoneinfo availability, the wall clocks, the HTTP response) is an `Env`
  record of oracles; observable side effects (prints, opening the quote
  file, issuing the POST) are an emitted `List Event` trace.
- Exceptions are `Except String`; a caught exception is consumed where the
  Python `except` clause consumes it.
-/

/-- JSON values as produced by Python's `json.load` / held in dicts. -/
inductive Json where
  | null
  | bool (b : Bool)
  | num (n : Int)
  | str (s : String)
  | arr (elems : List Json)
  | obj (fields : List (String × Json))

/-- A checklist entry `{"text": item}` (line 115 of the script). -/
structure ChecklistItem where
  text : String
deriving DecidableEq

/-- The task payload dict built by `make_task_payload` (lines 117-124). -/
structure Payload where
  type : String
  text : String
  notes : Json
  date : String
  checklist : List ChecklistItem
  priority : Int

/-- A `datetime.date`: proleptic-Gregorian calendar day. -/
structure Date where
  year : Nat
  month : Nat
  day : Nat
deriving DecidableEq

/-- Gregorian leap-year test. -/
def isLeap (y : Nat) : Bool :=
  y % 4 == 0 && (y % 100 != 0 || y % 400 == 0)

/-- Month lengths for a (non-)leap year. -/
def monthLengths (leap : Bool) : List Nat :=
  [31, if leap then 29 else 28, 31, 30, 31, 30, 31, 31, 30, 31, 30, 31]

/-- Days in the year strictly before month `m` (1-based). -/
def daysBeforeMonth (leap : Bool) (m : Nat) : Nat :=
  ((monthLengths leap).take (m - 1)).sum

/-- `date.toordinal()`: day number with 0001-01-01 as day 1 (CPython `_ymd2ord`). -/
def Date.toOrdinal (d : Date) : Nat :=
  365 * (d.year - 1) + ((d.year - 1) / 4 - (d.year - 1) / 100 + (d.year - 1) / 400)
    + daysBeforeMonth (isLeap d.year) d.month + d.day

/-- Locate the month containing a 0-based day-of-year, given month lengths. -/
def findMonth : List Nat → Nat → Nat → Nat × Nat
  | [], m, n => (m, n + 1)
  | len :: rest, m, n => if n < len then (m, n + 1) else findMonth rest (m + 1) (n - len)

/-- `date.fromordinal(n)`: inverse calendar conversion (CPython `_ord2ymd`). -/
def Date.fromOrdinal (n : Nat) : Date :=
  let n0 := n - 1
  let n400 := n0 / 146097
  let r400 := n0 % 146097
  let n100 := r400 / 36524
  let r100 := r400 % 36524
  let n4 := r100 / 1461
  let r4 := r100 % 1461
  let n1 := r4 / 365
  let rd := r4 % 365
  let year := 400 * n400 + 100 * n100 + 4 * n4 + n1 + 1
  if n1 == 4 || n100 == 4 then
    ⟨year - 1, 12, 31⟩
  else
    let (m, day) := findMonth (monthLengths (isLeap year)) 1 rd
    ⟨year, m, day⟩

/-- `d + timedelta(days=k)` (CPython routes date arithmetic through ordinals). -/
def Date.addDays (d : Date) (k : Nat) : Date :=
  Date.fromOrdinal (d.toOrdinal + k)

/-- Weekday names as produced by `strftime("%A")`; index 0 is Monday,
matching `date.weekday() == (toordinal + 6) % 7`. -/
def dayNames : List String :=
  ["Monday", "Tuesday", "Wednesday", "Thursday", "Friday", "Saturday", "Sunday"]

/-- `due_date.strftime("%A")` (line 107). -/
def weekdayName (d : Date) : String :=
  dayNames.getD ((d.toOrdinal + 6) % 7) ""

/-- Python `str.upper()` on one character, for the ASCII range the script's
strings use. -/
def pyUpperChar (c : Char) : Char :=
  if 'a' ≤ c ∧ c ≤ 'z' then Char.ofNat (c.toNat - 32) else c

/-- Python `str.upper()` (line 107). -/
def pyUpper (s : String) : String := ⟨s.data.map pyUpperChar⟩

/-- Python `str.lower()` on one character, for the ASCII range. -/
def pyLowerChar (c : Char) : Char :=
  if 'A' ≤ c ∧ c ≤ 'Z' then Char.ofNat (c.toNat + 32) else c

/-- Python `str.lower()` (lines 36-37). -/
def pyLower (s : String) : String := ⟨s.data.map pyLowerChar⟩

/-- Zero-pad a number to two digits (strftime `%m`, `%d`). -/
def pad2 (n : Nat) : String :=
  if n < 10 then "0" ++ toString n else toString n

/-- Zero-pad a number to four digits (strftime `%Y`). -/
def pad4 (n : Nat) : String :=
  if n < 10 then "000" ++ toString n
  else if n < 100 then "00" ++ toString n
  else if n < 1000 then "0" ++ toString n
  else toString n

/-- `date.isoformat()` / the `%Y-%m-%d` part of the task timestamp. -/
def isoDate (d : Date) : String :=
  pad4 d.year ++ "-" ++ pad2 d.month ++ "-" ++ pad2 d.day

/-- Line 112-113: noon-UTC ISO timestamp
`datetime.combine(due_date, time(hour=12)).strftime("%Y-%m-%dT%H:%M:%S.000Z")`. -/
def isoNoon (d : Date) : String :=
  isoDate d ++ "T12:00:00.000Z"

/-- Line 39. -/
def API_URL : String := "https://habitica.com/api/v3/tasks/user"

/-- Line 40. -/
def REPO_QUOTES_PATH : String := "quotes.json"

/-- Lines 50-59: the fixed checklist. -/
def CHECKLIST_ITEMS : List String :=
  ["## Work",
   "——— 🍅",
   "## Family",
   "—",
   "## Friends",
   "—",
   "## Health",
   "—"]

/-- Lines 62-68: fallback quotes used when the repo file is unusable. -/
def LOCAL_QUOTES : List String :=
  ["Tiny wins are still progress — celebrate them.",
   "Do the thing you told yourself you\x27d do yesterday.",
   "Progress > perfection. One step counts.",
   "Breathe. Focus. Ship something small.",
   "Treat today like a project you can finish."]

/-- Observable side effects of a run. `openFile` is an attempt to open a path
(whether or not it succeeds); `httpPost` is the POST issued by `create_task`;
the `print*` constructors are the script's `print` calls, with non-string
interpolated objects carried as values. -/
inductive Event where
  | printLine (s : String)
  | printQuote (q : Json)
  | printPayload (p : Payload)
  | printCreated (title : String) (taskId : Json)
  | openFile (path : String)
  | httpPost (url : String)

/-- The state of `quotes.json` as seen by `open` + `json.load` (lines 81-82):
missing, unreadable, undecodable, or successfully parsed to a JSON value. -/
inductive FileState where
  | absent
  | unreadable
  | malformed
  | parsed (j : Json)

/-- `open(REPO_QUOTES_PATH) ; json.load(f)` (lines 81-82): the exception the
try-block would raise, or the parsed value. -/
def readRepoFile : FileState → Except String Json
  | .absent => .error "FileNotFoundError"
  | .unreadable => .error "OSError"
  | .malformed => .error "JSONDecodeError"
  | .parsed j => .ok j

/-- `random.choice(xs)` on a list of JSON values, with oracle index `r`. -/
def pyChoice (xs : List Json) (r : Nat) : Json :=
  xs.getD (r % xs.length) .null

/-- `random.choice(xs)` on a list of strings, with oracle index `r`. -/
def pyChoiceStr (xs : List String) (r : Nat) : String :=
  xs.getD (r % xs.length) ""

/-- Lines 72-97, `fetch_quote(source)`. `debug` is the `DEBUG` global; `file`
is the state of `quotes.json`; `r` drives the in-file choice and `r2` the
fallback choice. Returns the emitted events and the function's result (the
try/except catches every read/parse failure, so the fallback path never
re-raises). -/
def fetch_quote (debug : Bool) (source : String) (file : FileState) (r r2 : Nat) :
    List Event × Except String Json :=
  let fallbackEvents : List Event :=
    if debug then [.printLine "DEBUG: Falling back to LOCAL_QUOTES..."] else []
  let fallbackQuote : Json := .str (pyChoiceStr LOCAL_QUOTES r2)
  if source == "repo" then
    let pre : List Event :=
      (if debug then
        [.printLine ("DEBUG: Attempting to read quotes from " ++ REPO_QUOTES_PATH ++ " ...")]
       else []) ++ [.openFile REPO_QUOTES_PATH]
    match readRepoFile file with
    | .ok pool =>
      match pool with
      | .arr (x :: xs) =>
        let quote := pyChoice (x :: xs) r
        (pre ++ (if debug then [.printQuote quote] else []), .ok quote)
      | _ =>
        (pre
          ++ (if debug then
               [.printLine "DEBUG: Repo quotes file parsed but was not a non-empty list."]
              else [])
          ++ fallbackEvents, .ok fallbackQuote)
    | .error e =>
      (pre
        ++ (if debug then
             [.printLine ("DEBUG: Failed to read/parse " ++ REPO_QUOTES_PATH ++ ": " ++ e)]
            else [])
        ++ fallbackEvents, .ok fallbackQuote)
  else
    (fallbackEvents, .ok fallbackQuote)

/-- Lines 101-124, `make_task_payload(due_date)`. The quote oracle arguments
are threaded through to the internal `fetch_quote(QUOTES_SOURCE)` call; an
exception there would propagate (none can, as `fetch_quote` always returns). -/
def make_task_payload (due_date : Date) (debug : Bool) (source : String)
    (file : FileState) (r r2 : Nat) : List Event × Except String Payload :=
  let fq := fetch_quote debug source file r r2
  (fq.1, fq.2.map (fun notes =>
    { type := "todo"
      text := "# " ++ pyUpper (weekdayName due_date)
      notes := notes
      date := isoNoon due_date
      checklist := CHECKLIST_ITEMS.map (fun item => ⟨item⟩)
      priority := 2 }))

/-- The HTTP response delivered for the POST: status code, raw body text, and
what `resp.json()` would yield (an error when the body is not valid JSON). -/
structure HttpResponse where
  status : Nat
  text : String
  bodyJson : Except String Json

/-- Lines 127-138, `create_task(payload)`. `resp.raise_for_status()` raises
`HTTPError` exactly when the status is 4xx/5xx; in that case the script
prints the raw body and re-raises. On success it returns `resp.json()`. -/
def create_task (debug : Bool) (payload : Payload) (resp : HttpResponse) :
    List Event × Except String Json :=
  let pre : List Event :=
    (if debug then [.printLine "DEBUG: Sending payload to Habitica:", .printPayload payload]
     else []) ++ [.httpPost API_URL]
  if 400 ≤ resp.status ∧ resp.status < 600 then
    (pre ++ [.printLine ("ERROR response from Habitica: " ++ resp.text)], .error "HTTPError")
  else
    (pre, resp.bodyJson)


/-- The process environment and external-world oracles for one run:
the five environment variables (lines 30-37), whether the `zoneinfo` import
succeeded (lines 24-27), whether the `ZoneInfo("America/Los_Angeles")`
lookup and `datetime.now` call succeed (lines 149-158) together with the
values the clocks would report, the machine's own local-timezone offset
(present in the world, never consulted by the script), the quote-file state
and random oracles, and the HTTP response to the POST. -/
structure Env where
  userId : Option String
  apiToken : Option String
  offsetEnv : Option String
  quotesSourceEnv : Option String
  debugEnv : Option String
  zoneInfoAvailable : Bool
  zoneLookupOk : Bool
  nowPacificIso : String
  zoneErrMsg : String
  pacificToday : Date
  utcToday : Date
  callerLocalOffsetMinutes : Int
  file : FileState
  r : Nat
  r2 : Nat
  response : HttpResponse

/-- Python truthiness test `not x` for an optional env string: true for an
unset variable or an empty string (line 143). -/
def missingStr : Option String → Bool
  | none => true
  | some s => s == ""

/-- Python `int(s)` on a non-negative decimal string: `none` where `int()`
would raise `ValueError`. -/
def pyParseNat (s : String) : Option Nat :=
  if !s.data.isEmpty && s.data.all (fun c => decide (48 ≤ c.toNat ∧ c.toNat ≤ 57)) then
    some (s.data.foldl (fun acc c => 10 * acc + (c.toNat - 48)) 0)
  else none

/-- Line 34: `OFFSET_DAYS = int(os.getenv("OFFSET_DAYS", "30"))`, modelled on
naturals (no claim exercises a negative or malformed offset). -/
def OFFSET_DAYS (env : Env) : Nat :=
  (pyParseNat (env.offsetEnv.getD "30")).getD 0

/-- Line 36: `QUOTES_SOURCE = os.getenv("QUOTES_SOURCE", "repo").lower()`. -/
def QUOTES_SOURCE (env : Env) : String :=
  pyLower (env.quotesSourceEnv.getD "repo")

/-- Line 37: `DEBUG = os.getenv("DEBUG", "false").lower() in ("1","true","yes")`. -/
def DEBUG (env : Env) : Bool :=
  ["1", "true", "yes"].contains (pyLower (env.debugEnv.getD "false"))

/-- Lines 147-162: determine "today" in Pacific time, with its debug prints.
When `zoneinfo` imported and the zone lookup succeeds, `today` is the
Pacific-clock date; on a zoneinfo error, or when the module is unavailable,
it degrades to `datetime.utcnow().date()`. -/
def todayOf (env : Env) : List Event × Date :=
  if env.zoneInfoAvailable then
    if env.zoneLookupOk then
      ((if DEBUG env then
          [.printLine ("DEBUG: Now in Pacific tz = " ++ env.nowPacificIso)]
        else []), env.pacificToday)
    else
      ((if DEBUG env then
          [.printLine ("DEBUG: zoneinfo error, falling back to UTC for \x27today\x27: "
            ++ env.zoneErrMsg)]
        else []), env.utcToday)
  else
    ((if DEBUG env then
        [.printLine "DEBUG: zoneinfo not available; falling back to UTC for \x27today\x27."]
      else []), env.utcToday)

/-- Line 165: `due = today_pacific + timedelta(days=OFFSET_DAYS)`. -/
def dueOf (env : Env) : Date :=
  (todayOf env).2.addDays (OFFSET_DAYS env)

/-- Dictionary subscription `j[key]`: `some` value on a dict that has the
key, `none` where Python would raise (`KeyError`/`TypeError`). -/
def jsonGet (j : Json) (key : String) : Option Json :=
  match j with
  | .obj fields => (fields.find? (fun p => p.1 == key)).map (fun p => p.2)
  | _ => none

/-- How a run terminates: `exit(1)`, normal return (process status 0), or an
uncaught exception (non-zero status). -/
inductive Outcome where
  | exited (code : Nat)
  | finished
  | raised (msg : String)
deriving DecidableEq

namespace habitica_seed

/-- Lines 142-171, `main()`: credential check, Pacific-based due date, one
payload, one POST, then `print(f"Created: {...} → {result['data']['id']}")`. -/
def main (env : Env) : List Event × Outcome :=
  if missingStr env.userId || missingStr env.apiToken then
    ([.printLine "ERROR: Set HABITICA_USER_ID and HABITICA_API_TOKEN environment variables."],
     .exited 1)
  else
    let tres := todayOf env
    let due := tres.2.addDays (OFFSET_DAYS env)
    let dev : List Event :=
      if DEBUG env then
        [.printLine ("DEBUG: OFFSET_DAYS=" ++ toString (OFFSET_DAYS env)
          ++ ". Creating task for due=" ++ isoDate due ++ " (Pacific-based).")]
      else []
    match make_task_payload due (DEBUG env) (QUOTES_SOURCE env) env.file env.r env.r2 with
    | (pev, .error e) => (tres.1 ++ dev ++ pev, .raised e)
    | (pev, .ok payload) =>
      match create_task (DEBUG env) payload env.response with
      | (cev, .error e) => (tres.1 ++ dev ++ pev ++ cev, .raised e)
      | (cev, .ok body) =>
        match jsonGet body "data" with
        | none => (tres.1 ++ dev ++ pev ++ cev, .raised "KeyError")
        | some dataField =>
          match jsonGet dataField "id" with
          | none => (tres.1 ++ dev ++ pev ++ cev, .raised "KeyError")
          | some taskId =>
            (tres.1 ++ dev ++ pev ++ cev ++ [.printCreated payload.text taskId],
             .finished)

end habitica_seed

/-- Line 83's test `isinstance(pool, list) and pool` on the parsed file:
`true` exactly when the repo quote file is usable (a non-empty JSON list). -/
def repoFileUsable : FileState → Bool
  | .parsed (.arr (_ :: _)) => true
  | _ => false

/-- Whether an event is an outgoing HTTP request. -/
def isPost : Event → Bool
  | .httpPost _ => true
  | _ => false

/-- The payload the script builds for 2024-01-07 with the constant-list quote
at index 0 (a reference value for witnesses). -/
def samplePayload : Payload :=
  { type := "todo"
    text := "# SUNDAY"
    notes := .str "Tiny wins are still progress — celebrate them."
    date := "2024-01-07T12:00:00.000Z"
    checklist := CHECKLIST_ITEMS.map (fun item => ⟨item⟩)
    priority := 2 }

/-- A successful creation response: Habitica returns the new task under
`data.id`. -/
def sampleOkBody : Json :=
  .obj [("success", .bool true), ("data", .obj [("id", .str "abc-123")])]

/-- A 200 response carrying `sampleOkBody`. -/
def sampleOkResponse : HttpResponse :=
  { status := 200, text := "ok-body-text", bodyJson := .ok sampleOkBody }

/-- A 401 response as Habitica sends for bad credentials. -/
def sampleErrResponse : HttpResponse :=
  { status := 401, text := "error-body-text", bodyJson := .error "JSONDecodeError" }

/-- A reference environment with both credentials present, zoneinfo working,
`DEBUG` unset, default offset and quote source, an absent quote file, and a
successful POST response. -/
def sampleEnv : Env :=
  { userId := some "user-1"
    apiToken := some "token-1"
    offsetEnv := none
    quotesSourceEnv := none
    debugEnv := none
    zoneInfoAvailable := true
    zoneLookupOk := true
    nowPacificIso := "2024-01-07T04:00:00-08:00"
    zoneErrMsg := "zone lookup failed"
    pacificToday := ⟨2024, 1, 7⟩
    utcToday := ⟨2024, 1, 7⟩
    callerLocalOffsetMinutes := 0
    file := .absent
    r := 0
    r2 := 0
    response := sampleOkResponse }

/-- `sampleEnv` with the user id unset. -/
def sampleEnvNoCreds : Env :=
  { sampleEnv with userId := none }

theorem fetch_quote_isOk (debug : Bool) (source : String) (file : FileState) (r r2 : Nat) :
    ∃ q, (fetch_quote debug source file r r2).2 = Except.ok q := by
  unfold fetch_quote
  by_cases hs : source == "repo"
  · simp only [hs, if_pos]
    cases hf : readRepoFile file with
    | ok pool =>
      cases pool with
      | arr elems =>
        cases elems with
        | nil => exact ⟨_, rfl⟩
        | cons x xs => exact ⟨_, rfl⟩
      | null => exact ⟨_, rfl⟩
      | bool b => exact ⟨_, rfl⟩
      | num n => exact ⟨_, rfl⟩
      | str s => exact ⟨_, rfl⟩
      | obj fields => exact ⟨_, rfl⟩
    | error e => exact ⟨_, rfl⟩
  · simp only [hs, if_neg]
    exact ⟨_, rfl⟩

theorem fetch_quote_fallback (debug : Bool) (source : String) (file : FileState) (r r2 : Nat)
    (h : source = "repo" → repoFileUsable file = false) :
    (fetch_quote debug source file r r2).2 =
      Except.ok (.str (pyChoiceStr LOCAL_QUOTES r2)) := by
  unfold fetch_quote
  by_cases hs : source == "repo"
  · have hs' : source = "repo" := by simpa using hs
    have hu := h hs'
    simp only [hs, if_pos]
    cases file with
    | parsed j =>
      cases j with
      | arr elems =>
        cases elems with
        | nil => rfl
        | cons x xs => simp [repoFileUsable] at hu
      | null => rfl
      | bool b => rfl
      | num n => rfl
      | str s => rfl
      | obj fields => rfl
    | absent => rfl
    | unreadable => rfl
    | malformed => rfl
  · simp only [hs]
    rfl

theorem pyChoiceStr_mem (xs : List String) (r : Nat) (h : xs ≠ []) :
    pyChoiceStr xs r ∈ xs := by
  have hlen : 0 < xs.length := List.length_pos.mpr h
  have hlt : r % xs.length < xs.length := Nat.mod_lt _ hlen
  unfold pyChoiceStr
  rw [List.getD_eq_getElem _ _ hlt]
  exact List.getElem_mem hlt

theorem pyChoice_mem (xs : List Json) (r : Nat) (h : xs ≠ []) :
    pyChoice xs r ∈ xs := by
  have hlen : 0 < xs.length := List.length_pos.mpr h
  have hlt : r % xs.length < xs.length := Nat.mod_lt _ hlen
  unfold pyChoice
  rw [List.getD_eq_getElem _ _ hlt]
  exact List.getElem_mem hlt

theorem localQuotes_nonempty_strings (s : String) (h : s ∈ LOCAL_QUOTES) : s ≠ "" := by
  fin_cases h <;> decide

/-- C1: for every due calendar date handed to `make_task_payload`, the `date`
field of the produced payload is the ISO rendering of that same calendar day
followed by the fixed noon-UTC time component, so it always ends in
`T12:00:00.000Z` regardless of the targeted date (and of the quote source,
file state, debug flag and random oracles). -/
theorem C1_date_field_noon_utc (due : Date) (debug : Bool) (source : String)
    (file : FileState) (r r2 : Nat) :
    ∃ p, (make_task_payload due debug source file r r2).2 = Except.ok p ∧
      p.date = isoDate due ++ "T12:00:00.000Z" := by
  obtain ⟨q, hq⟩ := fetch_quote_isOk debug source file r r2
  have hmk : (make_task_payload due debug source file r r2).2 =
      Except.ok
        { type := "todo"
          text := "# " ++ pyUpper (weekdayName due)
          notes := q
          date := isoNoon due
          checklist := CHECKLIST_ITEMS.map (fun item => ⟨item⟩)
          priority := 2 } := by
    simp only [make_task_payload, hq, Except.map]
  exact ⟨_, hmk, rfl⟩

/-- C7: for the due date 2024-01-07 (a Sunday), the payload title is
`"# SUNDAY"` and the timestamp is `2024-01-07T12:00:00.000Z`, whatever the
quote configuration. -/
theorem C7_sunday_payload (debug : Bool) (source : String) (file : FileState) (r r2 : Nat) :
    ∃ p, (make_task_payload ⟨2024, 1, 7⟩ debug source file r r2).2 = Except.ok p ∧
      p.text = "# SUNDAY" ∧ p.date = "2024-01-07T12:00:00.000Z" := by
  obtain ⟨q, hq⟩ := fetch_quote_isOk debug source file r r2
  have hmk : (make_task_payload ⟨2024, 1, 7⟩ debug source file r r2).2 =
      Except.ok
        { type := "todo"
          text := "# SUNDAY"
          notes := q
          date := "2024-01-07T12:00:00.000Z"
          checklist := CHECKLIST_ITEMS.map (fun item => ⟨item⟩)
          priority := 2 } := by
    simp only [make_task_payload, hq, Except.map]
    rfl
  exact ⟨_, hmk, rfl, rfl⟩

/-- C8: the payload is a function of the due date and the fetched quote
alone (checklist and priority being fixed constants): any two invocations
whose internal `fetch_quote` calls resolve to the same quote yield the same
payload, whatever the other oracle inputs (debug flag, source selector,
file state, random indices). -/
theorem C8_payload_deterministic (due : Date)
    (debug debug2 : Bool) (source source2 : String) (file file2 : FileState)
    (r r2 s s2 : Nat)
    (h : (fetch_quote debug source file r r2).2 = (fetch_quote debug2 source2 file2 s s2).2) :
    (make_task_payload due debug source file r r2).2 =
      (make_task_payload due debug2 source2 file2 s s2).2 := by
  simp only [make_task_payload]
  rw [h]

/-- Witness for C8 at concrete inputs: two runs with different debug flags,
selectors, file states and random indices that happen to resolve to the same
quote produce the same payload. -/
theorem C8_payload_deterministic_witness :
    (make_task_payload ⟨2024, 1, 7⟩ false "constant" .absent 0 0).2 =
      (make_task_payload ⟨2024, 1, 7⟩ true "local-file" .unreadable 3 5).2 :=
  C8_payload_deterministic ⟨2024, 1, 7⟩ false true "constant" "local-file"
    .absent .unreadable 0 0 3 5 (by rfl)

/-- C10: every payload `make_task_payload` produces has `type = "todo"`,
`priority = 2`, and a checklist of exactly the 8 records
`{"text": item}`, one per `CHECKLIST_ITEMS` entry in order. -/
theorem C10_payload_invariants (due : Date) (debug : Bool) (source : String)
    (file : FileState) (r r2 : Nat) (p : Payload)
    (h : (make_task_payload due debug source file r r2).2 = Except.ok p) :
    p.type = "todo" ∧ p.priority = 2 ∧
      p.checklist = CHECKLIST_ITEMS.map (fun item => ⟨item⟩) ∧
      p.checklist.length = 8 := by
  obtain ⟨q, hq⟩ := fetch_quote_isOk debug source file r r2
  have hmk : (make_task_payload due debug source file r r2).2 =
      Except.ok
        { type := "todo"
          text := "# " ++ pyUpper (weekdayName due)
          notes := q
          date := isoNoon due
          checklist := CHECKLIST_ITEMS.map (fun item => ⟨item⟩)
          priority := 2 } := by
    simp only [make_task_payload, hq, Except.map]
  rw [h] at hmk
  injection hmk with hp
  subst hp
  exact ⟨rfl, rfl, rfl, rfl⟩

/-- Witness for C10 at a concrete input: the reference payload for 2024-01-07
satisfies the invariants. -/
theorem C10_payload_invariants_witness :
    samplePayload.type = "todo" ∧ samplePayload.priority = 2 ∧
      samplePayload.checklist = CHECKLIST_ITEMS.map (fun item => ⟨item⟩) ∧
      samplePayload.checklist.length = 8 :=
  C10_payload_invariants ⟨2024, 1, 7⟩ false "constant" .absent 0 0 samplePayload (by rfl)

theorem fetch_quote_not_repo (debug : Bool) (source : String) (file : FileState) (r r2 : Nat)
    (h : (source == "repo") = false) :
    fetch_quote debug source file r r2 =
      ((if debug then [Event.printLine "DEBUG: Falling back to LOCAL_QUOTES..."] else []),
       Except.ok (.str (pyChoiceStr LOCAL_QUOTES r2))) := by
  unfold fetch_quote
  simp only [h]
  rfl

theorem fetch_quote_repo_list (debug : Bool) (r r2 : Nat) (x : Json) (xs : List Json) :
    (fetch_quote debug "repo" (.parsed (.arr (x :: xs))) r r2).2 =
      Except.ok (pyChoice (x :: xs) r) := rfl

/-- C3: for every source selection, `fetch_quote` returns normally (the
try/except swallows every read/parse failure), and whenever the repo file is
in a failure state — absent, unreadable, malformed JSON, or parsed to
something other than a non-empty list — or the source is not `"repo"` at
all, the result is a non-empty string drawn from `LOCAL_QUOTES`. -/
theorem C3_fetch_quote_total_nonempty (debug : Bool) (source : String)
    (file : FileState) (r r2 : Nat) :
    (∃ q, (fetch_quote debug source file r r2).2 = Except.ok q) ∧
    (repoFileUsable file = false ∨ source ≠ "repo" →
      (fetch_quote debug source file r r2).2 =
        Except.ok (.str (pyChoiceStr LOCAL_QUOTES r2)) ∧
      pyChoiceStr LOCAL_QUOTES r2 ∈ LOCAL_QUOTES ∧
      pyChoiceStr LOCAL_QUOTES r2 ≠ "") := by
  refine ⟨fetch_quote_isOk debug source file r r2, fun h => ⟨?_, ?_, ?_⟩⟩
  · refine fetch_quote_fallback debug source file r r2 (fun hs => ?_)
    rcases h with h | h
    · exact h
    · exact absurd hs h
  · exact pyChoiceStr_mem _ _ (by decide)
  · exact localQuotes_nonempty_strings _ (pyChoiceStr_mem _ _ (by decide))

/-- Witness for C3 at a concrete input: with the quote file absent, the
repo-source fetch returns the first constant quote, a non-empty member of
`LOCAL_QUOTES`. -/
theorem C3_fetch_quote_total_nonempty_witness :
    (fetch_quote false "repo" FileState.absent 0 0).2 =
      Except.ok (.str (pyChoiceStr LOCAL_QUOTES 0)) ∧
    pyChoiceStr LOCAL_QUOTES 0 ∈ LOCAL_QUOTES ∧ pyChoiceStr LOCAL_QUOTES 0 ≠ "" :=
  (C3_fetch_quote_total_nonempty false "repo" FileState.absent 0 0).2 (Or.inl rfl)

/-- C4: with the repo source and the quote file parsed as a non-empty JSON
list, `fetch_quote` returns the element at the random index modulo the
length — an element of the file's list, with every index reachable — and for
the file `["a","b"]` the result is always `"a"` or `"b"`, neither of which
is a constant-list entry; on any failure state it falls back to the constant
list. -/
theorem C4_repo_file_selection (debug : Bool) (r r2 : Nat) (xs : List Json)
    (hxs : xs ≠ []) :
    ((fetch_quote debug "repo" (.parsed (.arr xs)) r r2).2 = Except.ok (pyChoice xs r) ∧
      pyChoice xs r ∈ xs) ∧
    (∀ i, i < xs.length →
      (fetch_quote debug "repo" (.parsed (.arr xs)) i r2).2 =
        Except.ok (xs.getD i .null)) ∧
    (∀ file, repoFileUsable file = false →
      (fetch_quote debug "repo" file r r2).2 =
        Except.ok (.str (pyChoiceStr LOCAL_QUOTES r2)) ∧
      pyChoiceStr LOCAL_QUOTES r2 ∈ LOCAL_QUOTES) ∧
    (xs = [.str "a", .str "b"] →
      ((fetch_quote debug "repo" (.parsed (.arr xs)) r r2).2 = Except.ok (.str "a") ∨
       (fetch_quote debug "repo" (.parsed (.arr xs)) r r2).2 = Except.ok (.str "b")) ∧
      "a" ∉ LOCAL_QUOTES ∧ "b" ∉ LOCAL_QUOTES) := by
  cases xs with
  | nil => exact absurd rfl hxs
  | cons x rest =>
    refine ⟨⟨fetch_quote_repo_list debug r r2 x rest, pyChoice_mem _ _ (by simp)⟩,
      ?_, ?_, ?_⟩
    · intro i hi
      rw [fetch_quote_repo_list debug i r2 x rest]
      unfold pyChoice
      rw [Nat.mod_eq_of_lt hi]
    · intro file hf
      exact ⟨fetch_quote_fallback debug "repo" file r r2 (fun _ => hf),
        pyChoiceStr_mem _ _ (by decide)⟩
    · intro hab
      injection hab with hx hrest
      subst hx
      subst hrest
      refine ⟨?_, by decide, by decide⟩
      rw [fetch_quote_repo_list debug r r2 _ _]
      rcases Nat.mod_two_eq_zero_or_one r with h | h
      · exact Or.inl (by simp [pyChoice, h, List.getD])
      · exact Or.inr (by simp [pyChoice, h, List.getD])

/-- Witness for C4 at a concrete input: the file `["a","b"]` with random
index 0 yields `"a"`; index 1 yields `"b"`; and a malformed file falls back
to the constant list. -/
theorem C4_repo_file_selection_witness :
    ((fetch_quote false "repo" (.parsed (.arr [.str "a", .str "b"])) 0 0).2 =
        Except.ok (.str "a") ∨
      (fetch_quote false "repo" (.parsed (.arr [.str "a", .str "b"])) 0 0).2 =
        Except.ok (.str "b")) ∧
    "a" ∉ LOCAL_QUOTES ∧ "b" ∉ LOCAL_QUOTES :=
  (C4_repo_file_selection false 0 0 [.str "a", .str "b"] (by simp)).2.2.2 rfl

/-- C9: for every source selector other than `"repo"` (such as `remote`,
`local-file`, `constant`), `fetch_quote` never attempts to open the quote
file, issues no HTTP request (the script has no remote-quote code path at
all), and returns an element of the constant list `LOCAL_QUOTES`. -/
theorem C9_non_repo_selector_constant_list (debug : Bool) (source : String)
    (file : FileState) (r r2 : Nat) (h : source ≠ "repo") :
    (∀ path, Event.openFile path ∉ (fetch_quote debug source file r r2).1) ∧
    (∀ url, Event.httpPost url ∉ (fetch_quote debug source file r r2).1) ∧
    (fetch_quote debug source file r r2).2 =
      Except.ok (.str (pyChoiceStr LOCAL_QUOTES r2)) ∧
    pyChoiceStr LOCAL_QUOTES r2 ∈ LOCAL_QUOTES := by
  have hb : (source == "repo") = false := by
    simpa using h
  rw [fetch_quote_not_repo debug source file r r2 hb]
  refine ⟨?_, ?_, rfl, pyChoiceStr_mem _ _ (by decide)⟩
  · intro path
    cases debug <;> simp
  · intro url
    cases debug <;> simp

/-- Witness for C9 at a concrete input: the `"constant"` selector neither
opens `quotes.json` nor posts anywhere, and yields the first constant
quote. -/
theorem C9_non_repo_selector_constant_list_witness :
    Event.openFile REPO_QUOTES_PATH ∉ (fetch_quote false "constant" FileState.absent 0 0).1 ∧
    Event.httpPost API_URL ∉ (fetch_quote false "constant" FileState.absent 0 0).1 ∧
    (fetch_quote false "constant" FileState.absent 0 0).2 =
      Except.ok (.str (pyChoiceStr LOCAL_QUOTES 0)) :=
  ⟨(C9_non_repo_selector_constant_list false "constant" FileState.absent 0 0
      (by decide)).1 REPO_QUOTES_PATH,
   (C9_non_repo_selector_constant_list false "constant" FileState.absent 0 0
      (by decide)).2.1 API_URL,
   (C9_non_repo_selector_constant_list false "constant" FileState.absent 0 0
      (by decide)).2.2.1⟩

/-- C2: the run computes exactly one due date, `today + OFFSET_DAYS` in
`timedelta` arithmetic, where `today` is the Pacific-clock date when the
zoneinfo database resolved `America/Los_Angeles` and otherwise degrades to
the UTC calendar date; the machine's own local-timezone offset never
influences the result; `OFFSET_DAYS` defaults to 30; and each UTC-fallback
branch prints its diagnostic note exactly when debug is enabled. -/
theorem C2_single_offset_policy (env : Env) :
    (dueOf env =
      (if env.zoneInfoAvailable && env.zoneLookupOk then env.pacificToday
       else env.utcToday).addDays (OFFSET_DAYS env)) ∧
    (env.offsetEnv = none → OFFSET_DAYS env = 30) ∧
    (∀ tz, dueOf { env with callerLocalOffsetMinutes := tz } = dueOf env) ∧
    (env.zoneInfoAvailable = true → env.zoneLookupOk = false → DEBUG env = true →
      (todayOf env).1 =
        [.printLine ("DEBUG: zoneinfo error, falling back to UTC for \x27today\x27: "
          ++ env.zoneErrMsg)]) ∧
    (env.zoneInfoAvailable = false → DEBUG env = true →
      (todayOf env).1 =
        [.printLine "DEBUG: zoneinfo not available; falling back to UTC for \x27today\x27."]) := by
  refine ⟨?_, ?_, fun tz => rfl, ?_, ?_⟩
  · unfold dueOf todayOf
    rcases hz : env.zoneInfoAvailable <;> rcases hk : env.zoneLookupOk <;> simp [hz, hk]
  · intro h
    simp [OFFSET_DAYS, h]
    rfl
  · intro h1 h2 h3
    simp [todayOf, h1, h2, h3]
  · intro h1 h3
    simp [todayOf, h1, h3]

/-- Witness for C2 at a concrete environment: Pacific today 2024-01-07,
unset `OFFSET_DAYS` (default 30), so the due date is 2024-02-06; and in the
zone-failure variant with debug on, the diagnostic note is printed. -/
theorem C2_single_offset_policy_witness :
    OFFSET_DAYS sampleEnv = 30 ∧
    dueOf sampleEnv = ⟨2024, 2, 6⟩ ∧
    (todayOf { sampleEnv with zoneLookupOk := false, debugEnv := some "true" }).1 =
      [.printLine ("DEBUG: zoneinfo error, falling back to UTC for \x27today\x27: "
        ++ sampleEnv.zoneErrMsg)] := by
  refine ⟨(C2_single_offset_policy sampleEnv).2.1 rfl, ?_, ?_⟩
  · rw [(C2_single_offset_policy sampleEnv).1]
    decide
  · exact (C2_single_offset_policy { sampleEnv with zoneLookupOk := false, debugEnv := some "true" }).2.2.2.1
      rfl rfl (by decide)

/-- C5 (amended): on a 4xx/5xx status `create_task` prints the raw response
body and re-raises the `HTTPError` to its caller; on a success status it
returns the parsed JSON response body (the caller then reads the
service-assigned identifier from its `data.id` field). -/
theorem C5_create_task_propagates (debug : Bool) (p : Payload) (resp : HttpResponse) :
    (400 ≤ resp.status ∧ resp.status < 600 →
      (create_task debug p resp).2 = Except.error "HTTPError" ∧
      Event.printLine ("ERROR response from Habitica: " ++ resp.text) ∈
        (create_task debug p resp).1) ∧
    (resp.status < 400 → (create_task debug p resp).2 = resp.bodyJson) := by
  constructor
  · intro h
    unfold create_task
    rw [if_pos h]
    refine ⟨rfl, ?_⟩
    cases debug <;> simp
  · intro h
    have hne : ¬(400 ≤ resp.status ∧ resp.status < 600) := by omega
    unfold create_task
    rw [if_neg hne]

/-- Witness for C5 at concrete inputs: a 401 response is printed and
re-raised; a 200 response yields the parsed body. -/
theorem C5_create_task_propagates_witness :
    (create_task false samplePayload sampleErrResponse).2 = Except.error "HTTPError" ∧
    Event.printLine ("ERROR response from Habitica: " ++ sampleErrResponse.text) ∈
      (create_task false samplePayload sampleErrResponse).1 ∧
    (create_task false samplePayload sampleOkResponse).2 = sampleOkResponse.bodyJson :=
  ⟨((C5_create_task_propagates false samplePayload sampleErrResponse).1 (by decide)).1,
   ((C5_create_task_propagates false samplePayload sampleErrResponse).1 (by decide)).2,
   (C5_create_task_propagates false samplePayload sampleOkResponse).2 (by decide)⟩

/-- Counterexample for C5 as stated: on the successful response whose
service-assigned identifier is `"abc-123"`, `create_task` does not return
that identifier — it returns the whole parsed response body, from which
`main` extracts `result["data"]["id"]`. -/
theorem C5_counterexample_returns_body_not_id :
    (create_task false samplePayload sampleOkResponse).2 = Except.ok sampleOkBody ∧
    jsonGet sampleOkBody "data" = some (Json.obj [("id", Json.str "abc-123")]) ∧
    jsonGet (Json.obj [("id", Json.str "abc-123")]) "id" = some (Json.str "abc-123") ∧
    (create_task false samplePayload sampleOkResponse).2 ≠ Except.ok (Json.str "abc-123") := by
  have hbody : (create_task false samplePayload sampleOkResponse).2 = Except.ok sampleOkBody := rfl
  refine ⟨hbody, rfl, rfl, ?_⟩
  rw [hbody]
  simp [sampleOkBody]

theorem countP_isPost_todayOf (env : Env) : (todayOf env).1.countP isPost = 0 := by
  unfold todayOf
  rcases hz : env.zoneInfoAvailable <;> rcases hk : env.zoneLookupOk <;>
    cases hd : DEBUG env <;> simp [hd, isPost]

theorem countP_isPost_fetch (debug : Bool) (source : String) (file : FileState) (r r2 : Nat) :
    (fetch_quote debug source file r r2).1.countP isPost = 0 := by
  unfold fetch_quote
  by_cases hs : source == "repo"
  · simp only [hs, if_pos]
    rcases file with _ | _ | _ | j
    · cases debug <;> simp [readRepoFile, isPost]
    · cases debug <;> simp [readRepoFile, isPost]
    · cases debug <;> simp [readRepoFile, isPost]
    · rcases j with _ | b | n | s | elems | fields
      · cases debug <;> simp [readRepoFile, isPost]
      · cases debug <;> simp [readRepoFile, isPost]
      · cases debug <;> simp [readRepoFile, isPost]
      · cases debug <;> simp [readRepoFile, isPost]
      · rcases elems with _ | ⟨x, xs⟩
        · cases debug <;> simp [readRepoFile, isPost]
        · cases debug <;> simp [readRepoFile, isPost]
      · cases debug <;> simp [readRepoFile, isPost]
  · simp only [hs]
    cases debug <;> simp [isPost]

/-- C6: when either credential is unset (or empty, which Python's truthiness
also treats as missing), `main` prints the configuration error and exits
with code 1, its trace containing no HTTP request; with both credentials
present and a successful creation response carrying `data.id`, the run
terminates normally (process status 0) after exactly one POST. -/
theorem C6_credentials_gate (env : Env) :
    ((missingStr env.userId || missingStr env.apiToken) = true →
      habitica_seed.main env =
        ([.printLine
            "ERROR: Set HABITICA_USER_ID and HABITICA_API_TOKEN environment variables."],
         .exited 1) ∧
      (habitica_seed.main env).1.countP isPost = 0) ∧
    ((missingStr env.userId || missingStr env.apiToken) = false →
      ∀ body dataField taskId,
        env.response.status < 400 →
        env.response.bodyJson = Except.ok body →
        jsonGet body "data" = some dataField →
        jsonGet dataField "id" = some taskId →
        (habitica_seed.main env).2 = .finished ∧
        (habitica_seed.main env).1.countP isPost = 1) := by
  constructor
  · intro h
    have hm : habitica_seed.main env =
        ([.printLine
            "ERROR: Set HABITICA_USER_ID and HABITICA_API_TOKEN environment variables."],
         .exited 1) := by
      unfold habitica_seed.main
      rw [h]
      simp
    exact ⟨hm, by rw [hm]; simp [isPost]⟩
  · intro h body dataField taskId hst hbody hdata hid
    obtain ⟨q, hq⟩ := fetch_quote_isOk (DEBUG env) (QUOTES_SOURCE env) env.file env.r env.r2
    have hmk : make_task_payload ((todayOf env).2.addDays (OFFSET_DAYS env)) (DEBUG env)
        (QUOTES_SOURCE env) env.file env.r env.r2 =
        ((fetch_quote (DEBUG env) (QUOTES_SOURCE env) env.file env.r env.r2).1,
         Except.ok
           { type := "todo"
             text := "# " ++ pyUpper (weekdayName ((todayOf env).2.addDays (OFFSET_DAYS env)))
             notes := q
             date := isoNoon ((todayOf env).2.addDays (OFFSET_DAYS env))
             checklist := CHECKLIST_ITEMS.map (fun item => ⟨item⟩)
             priority := 2 }) := by
      simp only [make_task_payload, hq, Except.map]
    have hct : ∀ pl : Payload, create_task (DEBUG env) pl env.response =
        ((if DEBUG env then
            [.printLine "DEBUG: Sending payload to Habitica:", .printPayload pl]
          else []) ++ [Event.httpPost API_URL], Except.ok body) := by
      intro pl
      unfold create_task
      have hne : ¬(400 ≤ env.response.status ∧ env.response.status < 600) := by omega
      rw [if_neg hne, hbody]
    have hmain : habitica_seed.main env =
        ((todayOf env).1
          ++ (if DEBUG env then
                [.printLine ("DEBUG: OFFSET_DAYS=" ++ toString (OFFSET_DAYS env)
                  ++ ". Creating task for due="
                  ++ isoDate ((todayOf env).2.addDays (OFFSET_DAYS env))
                  ++ " (Pacific-based).")]
              else [])
          ++ (fetch_quote (DEBUG env) (QUOTES_SOURCE env) env.file env.r env.r2).1
          ++ ((if DEBUG env then
                [.printLine "DEBUG: Sending payload to Habitica:",
                 .printPayload
                   { type := "todo"
                     text := "# " ++ pyUpper (weekdayName ((todayOf env).2.addDays (OFFSET_DAYS env)))
                     notes := q
                     date := isoNoon ((todayOf env).2.addDays (OFFSET_DAYS env))
                     checklist := CHECKLIST_ITEMS.map (fun item => ⟨item⟩)
                     priority := 2 }]
               else []) ++ [Event.httpPost API_URL])
          ++ [.printCreated
                ("# " ++ pyUpper (weekdayName ((todayOf env).2.addDays (OFFSET_DAYS env))))
                taskId],
         .finished) := by
      unfold habitica_seed.main
      rw [h]
      simp only [Bool.false_eq_true, if_false]
      rw [hmk]
      dsimp only
      rw [hct]
      dsimp only
      rw [hdata]
      dsimp only
      rw [hid]
    constructor
    · rw [hmain]
    · rw [hmain]
      cases hD : DEBUG env <;>
        simp [List.countP_append, List.countP_cons, countP_isPost_todayOf,
          countP_isPost_fetch, isPost]

/-- Witness for C6 at concrete environments: with the user id unset the run
exits with code 1 after only the error print; with both credentials present
and a successful response the run finishes normally with exactly one POST. -/
theorem C6_credentials_gate_witness :
    habitica_seed.main sampleEnvNoCreds =
      ([.printLine
          "ERROR: Set HABITICA_USER_ID and HABITICA_API_TOKEN environment variables."],
       .exited 1) ∧
    (habitica_seed.main sampleEnv).2 = .finished ∧
    (habitica_seed.main sampleEnv).1.countP isPost = 1 :=
  ⟨((C6_credentials_gate sampleEnvNoCreds).1 (by decide)).1,
   ((C6_credentials_gate sampleEnv).2 (by decide) sampleOkBody
      (Json.obj [("id", Json.str "abc-123")]) (Json.str "abc-123")
      (by decide) rfl rfl rfl).1,
   ((C6_credentials_gate sampleEnv).2 (by decide) sampleOkBody
      (Json.obj [("id", Json.str "abc-123")]) (Json.str "abc-123")
      (by decide) rfl rfl rfl).2⟩
